import Mathlib

/-!
Verification development for the AI legal-assistant CLI
(`Assistant_Main_Code.py`).

The program's logic is embedded shallowly:

* `to_markdown` — the output formatter (`text.replace("•", "  *")` followed
  by `textwrap.indent(text, "> ", predicate=lambda _: True)`);
* `configure_genai` — the credential check on the `GOOGLE_API_KEY`
  environment variable;
* `choose_model` — the model resolver over the provider's availability list;
* `runLoop` — the interactive read/send/print loop, driven by a scripted
  list of read events (a line, an interrupt during `input()`, end-of-file)
  and a scripted list of results for each dispatched `chat.send_message`
  (a reply, an `Exception`, or a `KeyboardInterrupt` arriving in flight);
* `pymain` — the `main()` wrapper mapping errors to exit codes.

Effects (network calls, stdout, stderr) are recorded as an `Action` trace,
and the process outcome as a `ProcResult`.
-/

namespace LegalAssistant

/-! ## Python string primitives used by the program -/

/-- The characters Python's `str.splitlines` treats as line boundaries
(`\r\n` is additionally consumed as a single boundary, handled in
`splitlinesKeepAux`). -/
def isPyLineBreak (c : Char) : Bool :=
  c = '\n' || c = '\r' || c = Char.ofNat 0x0B || c = Char.ofNat 0x0C ||
  c = Char.ofNat 0x1C || c = Char.ofNat 0x1D || c = Char.ofNat 0x1E ||
  c = Char.ofNat 0x85 || c = Char.ofNat 0x2028 || c = Char.ofNat 0x2029

/-- Python `text.splitlines(keepends=True)`: cut after every line boundary,
keeping the boundary characters; a trailing fragment with no boundary is a
line of its own; the empty string has no lines. `acc` holds the current
line, reversed. -/
def splitlinesKeepAux (acc : List Char) : List Char → List (List Char)
  | [] => if acc.isEmpty then [] else [acc.reverse]
  | '\r' :: '\n' :: rest => (acc.reverse ++ ['\r', '\n']) :: splitlinesKeepAux [] rest
  | c :: rest =>
    if isPyLineBreak c then (acc.reverse ++ [c]) :: splitlinesKeepAux [] rest
    else splitlinesKeepAux (c :: acc) rest

def splitlinesKeep (cs : List Char) : List (List Char) :=
  splitlinesKeepAux [] cs

/-- `textwrap.indent(text, pfx, predicate=lambda _: True)`: the predicate is
constantly true, so every line of `splitlines(True)` gets the prefix. -/
def pyIndentAll (pfx : List Char) (cs : List Char) : List Char :=
  ((splitlinesKeep cs).map (fun line => pfx ++ line)).flatten

/-- The bullet glyph the formatter rewrites. -/
def bullet : Char := '•'

/-- Python `text.replace("•", rep)`: the pattern is a single character, so
the replacement substitutes `rep` for each occurrence of `•`, left to
right, keeping all other characters. -/
def pyReplaceBullet (rep : List Char) : List Char → List Char
  | [] => []
  | c :: cs => (if c = bullet then rep else [c]) ++ pyReplaceBullet rep cs

/-- The replacement string of the source, `"  *"` (two spaces and an
asterisk). -/
def bulletMarker : List Char := "  *".toList

/-- The quoting marker passed to `textwrap.indent`, `"> "`. -/
def quoteMarker : List Char := "> ".toList

/-- `to_markdown`: replace bullets, then prefix every line with `"> "`. -/
def to_markdown (text : String) : String :=
  String.mk (pyIndentAll quoteMarker (pyReplaceBullet bulletMarker text.toList))

/-- The whitespace characters Python's `str.strip()` removes at the ends
(the ASCII ones; the program only ever strips console input). -/
def pyIsSpace (c : Char) : Bool :=
  c = ' ' || c = '\t' || c = '\n' || c = '\r' || c = Char.ofNat 0x0B || c = Char.ofNat 0x0C

/-- Python `s.strip()`. -/
def pyStrip (s : String) : String :=
  String.mk (((s.toList.dropWhile pyIsSpace).reverse.dropWhile pyIsSpace).reverse)

/-- Python `s.lower()` (exact on the ASCII inputs the loop compares). -/
def pyLower (s : String) : String :=
  String.mk (s.toList.map Char.toLower)

/-- The loop's exit test: `user_question.lower() in {"quit", "exit"}`. -/
def isExitCmd (q : String) : Bool :=
  pyLower q = "quit" || pyLower q = "exit"

/-! ## Credential loader (`configure_genai`) -/

/-- The message of the `RuntimeError` raised on a missing key. -/
def configMissingMsg : String :=
  "GOOGLE_API_KEY not set. Set it in your environment or use a .env file."

/-- `configure_genai`: `os.environ.get("GOOGLE_API_KEY")` is `none` when the
variable is absent; `if not api_key` is true for `None` and for `""`. -/
def configure_genai (googleApiKey : Option String) : Except String Unit :=
  match googleApiKey with
  | none => Except.error configMissingMsg
  | some k => if k = "" then Except.error configMissingMsg else Except.ok ()

/-! ## Model resolver (`choose_model`) -/

/-- The default of `choose_model`'s `preferred` parameter (also the value
`main` passes explicitly). -/
def defaultPreferred : String := "gemini-flash-latest"

/-- The fallback tuple scanned when `preferred` is unavailable, in source
order. -/
def fallbacks : List String :=
  ["gemini-2.5-flash", "gemini-2.5-flash-lite", "gemini-flash-latest"]

/-- Python `"\n".join(available)`. -/
def joinNL : List String → String
  | [] => ""
  | [a] => a
  | a :: rest => a ++ "\n" ++ joinNL rest

/-- The message of the `RuntimeError` raised when no model matches. -/
def modelErrMsg (preferred : String) (available : List String) : String :=
  "Preferred model '" ++ preferred ++ "' not available. Models you can access:\n"
    ++ joinNL available

/-- `choose_model`, given the provider's availability list: return
`preferred` when listed, else the first listed fallback, else fail with a
message enumerating every available model. -/
def choose_model (available : List String) (preferred : String) : Except String String :=
  if preferred ∈ available then Except.ok preferred
  else
    match fallbacks.find? (fun c => available.contains c) with
    | some c => Except.ok c
    | none => Except.error (modelErrMsg preferred available)

/-! ## Interaction loop (`run_chat_loop`) and `main` -/

/-- One result of the blocking `input("Your Question: ")` call: a line, a
`KeyboardInterrupt`, or an `EOFError` (the latter two share one handler). -/
inductive ReadEvent
  | line (s : String)
  | interrupt
  | eof
deriving DecidableEq, Repr

/-- One result of `chat.send_message`: a reply, a raised `Exception`
(caught by the loop's handler), or a `KeyboardInterrupt` arriving while the
request is in flight — `KeyboardInterrupt` derives from `BaseException`,
not `Exception`, so no handler in the program catches it. -/
inductive SendResult
  | ok (reply : String)
  | exn (msg : String)
  | interrupt
deriving DecidableEq, Repr

/-- An observable effect: the provider calls (`genai.list_models`,
`chat.send_message`) and the writes to stdout and stderr. -/
inductive Action
  | listModels
  | send (text : String)
  | printOut (s : String)
  | printErr (s : String)
deriving DecidableEq, Repr

/-- How `run_chat_loop` ends: `finished` — a `break`, the function returns;
`interrupted` — a `KeyboardInterrupt` escaped from `chat.send_message`;
`starved` — the scripted events ran out while the loop was still blocked
waiting for input or for a send result. -/
inductive LoopOutcome
  | finished
  | interrupted
  | starved
deriving DecidableEq, Repr

/-- The stdout block printed for a successful reply. -/
def answerActions (reply : String) : List Action :=
  [Action.printOut "\n--- Answer ---",
   Action.printOut (to_markdown reply),
   Action.printOut "---------------\n"]

/-- The stderr report for a failed send. -/
def sendErrAction (e : String) : Action :=
  Action.printErr ("An error occurred when sending the message: " ++ e)

/-- The `while True` loop of `run_chat_loop`, consuming the scripted read
events and, per dispatched send, the scripted send results. Returns the
action trace, how the loop ended, and the unconsumed send results. -/
def runLoop : List ReadEvent → List SendResult → List Action × LoopOutcome × List SendResult
  | [], sends => ([], LoopOutcome.starved, sends)
  | ReadEvent.interrupt :: _, sends =>
    ([Action.printOut "\nGoodbye! 👋"], LoopOutcome.finished, sends)
  | ReadEvent.eof :: _, sends =>
    ([Action.printOut "\nGoodbye! 👋"], LoopOutcome.finished, sends)
  | ReadEvent.line s :: rest, sends =>
    if pyStrip s = "" then runLoop rest sends
    else if isExitCmd (pyStrip s) then
      ([Action.printOut "Goodbye! 👋"], LoopOutcome.finished, sends)
    else
      match sends with
      | [] => ([Action.send (pyStrip s)], LoopOutcome.starved, [])
      | SendResult.ok reply :: sends' =>
        let t := runLoop rest sends'
        (Action.send (pyStrip s) :: (answerActions reply ++ t.1), t.2)
      | SendResult.exn e :: sends' =>
        let t := runLoop rest sends'
        (Action.send (pyStrip s) :: (sendErrAction e :: t.1), t.2)
      | SendResult.interrupt :: sends' =>
        ([Action.send (pyStrip s)], LoopOutcome.interrupted, sends')

/-- The banner `run_chat_loop` prints before reading input. -/
def bannerActions : List Action :=
  [Action.printOut "⚖️  Legal AI Assistant ⚖️",
   Action.printOut "Ask me any question about Indian law. Type 'exit' or 'quit' to end.",
   Action.printOut "----------------------------------------"]

/-- What feeds one process run: the `GOOGLE_API_KEY` variable (`none` when
unset), the provider's answer to `genai.list_models` (`Except.error` models
the call raising), and the scripted loop events. -/
structure Env where
  googleApiKey : Option String
  listModelsResult : Except String (List String)
  reads : List ReadEvent
  sends : List SendResult

/-- How the process ends: `exit c` — `sys.exit(c)` or a normal return from
`main`; `uncaughtInterrupt` — a `KeyboardInterrupt` left every handler (the
interpreter reports it and the exit status is not 0); `stillRunning` — the
scripted events ran out, the real process would still be blocked. -/
inductive ProcResult
  | exit (code : Nat)
  | uncaughtInterrupt
  | stillRunning
deriving DecidableEq, Repr

/-- `main()`: configure, resolve a model (`preferred="gemini-flash-latest"`),
run the loop; `RuntimeError` from the first two steps prints to stderr and
exits 1; only `Exception`s from the loop are caught by the last handler, so
an escaped `KeyboardInterrupt` stays uncaught. -/
def pymain (env : Env) : List Action × ProcResult :=
  match configure_genai env.googleApiKey with
  | Except.error msg =>
    ([Action.printErr ("Configuration error: " ++ msg)], ProcResult.exit 1)
  | Except.ok _ =>
    match env.listModelsResult with
    | Except.error e =>
      ([Action.listModels,
        Action.printErr ("Model selection error: Failed to list models: " ++ e)],
       ProcResult.exit 1)
    | Except.ok available =>
      match choose_model available defaultPreferred with
      | Except.error msg =>
        ([Action.listModels, Action.printErr ("Model selection error: " ++ msg)],
         ProcResult.exit 1)
      | Except.ok _ =>
        let t := runLoop env.reads env.sends
        (Action.listModels :: (bannerActions ++ t.1),
         match t.2.1 with
         | LoopOutcome.finished => ProcResult.exit 0
         | LoopOutcome.interrupted => ProcResult.uncaughtInterrupt
         | LoopOutcome.starved => ProcResult.stillRunning)

/-- The texts handed to `chat.send_message`, in order, in a trace. -/
def sendTexts : List Action → List String
  | [] => []
  | Action.send q :: rest => q :: sendTexts rest
  | _ :: rest => sendTexts rest

/-! ## The formatter as the specification words it -/

/-- Modelled from the spec: the formatter of §4.5, parameterized by the
replacement marker — replace every occurrence of the bullet glyph with
`marker` preserving surrounding text, then prefix every line, the first and
blank lines included, with the quoting marker. -/
def formatSpecMarker (marker : List Char) (t : String) : String :=
  String.mk
    (((splitlinesKeep (t.toList.flatMap (fun c => if c = bullet then marker else [c]))).map
      (fun line => quoteMarker ++ line)).flatten)

/-- The marker the spec describes: a two-character marker, a space followed
by an asterisk. -/
def specTwoCharMarker : List Char := [' ', '*']

/-- The remaining texts after a dispatched send: none when the send was cut
by a `KeyboardInterrupt`, otherwise whatever the rest of the run sends. -/
def afterSendTexts (r : SendResult) (rest : List ReadEvent) (sends' : List SendResult) :
    List String :=
  match r with
  | SendResult.interrupt => []
  | _ => sendTexts (runLoop rest sends').1

/-- The fallback scan without its redundant last entry (`defaultPreferred`
itself). -/
def fallbacksDeduped : List String := ["gemini-2.5-flash", "gemini-2.5-flash-lite"]

/-- `choose_model` scanning only the deduplicated fallbacks. -/
def choose_model_dedup (available : List String) (preferred : String) : Except String String :=
  if preferred ∈ available then Except.ok preferred
  else
    match fallbacksDeduped.find? (fun c => available.contains c) with
    | some c => Except.ok c
    | none => Except.error (modelErrMsg preferred available)

/-! ## Supporting lemmas -/

theorem strToList_append (a b : String) : (a ++ b).toList = a.toList ++ b.toList :=
  rfl

theorem pyReplaceBullet_eq_bind (rep : List Char) (l : List Char) :
    pyReplaceBullet rep l = l.flatMap (fun c => if c = bullet then rep else [c]) := by
  induction l with
  | nil => rfl
  | cons c cs ih => simp [pyReplaceBullet, ih]

theorem occursIn_joinNL (a : String) (av : List String) (h : a ∈ av) :
    ∃ l r : List Char, (joinNL av).toList = l ++ a.toList ++ r := by
  induction av with
  | nil => cases h
  | cons b rest ih =>
    rcases List.mem_cons.mp h with rfl | h2
    · cases rest with
      | nil => exact ⟨[], [], by simp [joinNL]⟩
      | cons c cs =>
        exact ⟨[], ("\n" ++ joinNL (c :: cs)).toList, by
          simp [joinNL, strToList_append, List.append_assoc]⟩
    · cases rest with
      | nil => cases h2
      | cons c cs =>
        obtain ⟨l, r, e⟩ := ih h2
        have e' : (joinNL (c :: cs)).data = l ++ (a.data ++ r) := by
          simpa [List.append_assoc] using e
        refine ⟨b.toList ++ "\n".toList ++ l, r, ?_⟩
        simp [joinNL, strToList_append, e', List.append_assoc]

/-! ## The claims -/

/-- C1: `choose_model` returns `preferred` when it is listed as available;
otherwise it returns the first member of the fixed fallback priority list
found in the availability list; otherwise it fails with a message that
contains every available model name. -/
theorem choose_model_correct (available : List String) (preferred : String) :
    (preferred ∈ available → choose_model available preferred = Except.ok preferred)
    ∧ (preferred ∉ available →
        ∀ c, fallbacks.find? (fun f => available.contains f) = some c →
          choose_model available preferred = Except.ok c)
    ∧ (preferred ∉ available →
        fallbacks.find? (fun f => available.contains f) = none →
        ∃ msg, choose_model available preferred = Except.error msg
          ∧ ∀ a ∈ available, ∃ l r : List Char, msg.toList = l ++ a.toList ++ r) := by
  refine ⟨fun h => by simp [choose_model, h],
    fun h c hc => by unfold choose_model; rw [if_neg h, hc],
    fun h hn => ?_⟩
  refine ⟨modelErrMsg preferred available, by unfold choose_model; rw [if_neg h, hn],
    fun a ha => ?_⟩
  obtain ⟨l, r, e⟩ := occursIn_joinNL a available ha
  have e' : (joinNL available).data = l ++ (a.data ++ r) := by
    simpa [List.append_assoc] using e
  refine ⟨("Preferred model '" ++ preferred
    ++ "' not available. Models you can access:\n").toList ++ l, r, ?_⟩
  simp [modelErrMsg, strToList_append, e', List.append_assoc]

/-- C1 witness: the three branches at concrete availability lists. -/
theorem choose_model_correct_witness :
    choose_model ["x", "gemini-2.5-flash-lite"] "x" = Except.ok "x"
    ∧ choose_model ["y", "gemini-2.5-flash-lite"] "x" = Except.ok "gemini-2.5-flash-lite"
    ∧ (∃ msg, choose_model ["models/a", "models/b"] "x" = Except.error msg
        ∧ ∀ a ∈ ["models/a", "models/b"], ∃ l r : List Char, msg.toList = l ++ a.toList ++ r) :=
  ⟨(choose_model_correct ["x", "gemini-2.5-flash-lite"] "x").1 (by decide),
   (choose_model_correct ["y", "gemini-2.5-flash-lite"] "x").2.1 (by decide)
     "gemini-2.5-flash-lite" (by decide),
   (choose_model_correct ["models/a", "models/b"] "x").2.2 (by decide) (by decide)⟩

/-- C5 counterexample: the fallback priority list is not disjoint from the
default preferred identifier — its last member is the default preferred
value itself. -/
theorem fallbacks_contain_default :
    defaultPreferred ∈ fallbacks ∧ fallbacks.getLast? = some defaultPreferred := by
  decide

/-- C5 amended: the fallback list's last member equals the default preferred
value; the duplicate entry is redundant — with the default preferred,
`choose_model` behaves exactly like the scan with the duplicate removed. -/
theorem fallback_duplicate_redundant :
    defaultPreferred ∈ fallbacks
    ∧ ∀ available : List String,
        choose_model available defaultPreferred = choose_model_dedup available defaultPreferred := by
  refine ⟨by decide, fun available => ?_⟩
  by_cases hp : defaultPreferred ∈ available
  · simp [choose_model, choose_model_dedup, hp]
  · have hc : "gemini-flash-latest" ∉ available := hp
    unfold choose_model choose_model_dedup
    rw [if_neg hp, if_neg hp]
    by_cases h1 : "gemini-2.5-flash" ∈ available
    · simp [fallbacks, fallbacksDeduped, List.find?, h1]
    · by_cases h2 : "gemini-2.5-flash-lite" ∈ available
      · simp [fallbacks, fallbacksDeduped, List.find?, h1, h2]
      · simp [fallbacks, fallbacksDeduped, List.find?, h1, h2, hc]

/-- C7: on the two-bullet input the formatter yields exactly the two quoted,
asterisk-bulleted lines. -/
theorem to_markdown_two_bullets : to_markdown "• a\n• b" = ">   * a\n>   * b" := by
  decide

/-- C8 counterexample: the formatter does not substitute the two-character
marker the spec describes — replacing the bullet with a space and an
asterisk and then quoting would give a four-character result on the
one-bullet input, while `to_markdown` inserts three characters per bullet. -/
theorem to_markdown_marker_not_two_chars :
    to_markdown "•" = ">   *"
    ∧ formatSpecMarker specTwoCharMarker "•" = ">  *"
    ∧ to_markdown "•" ≠ formatSpecMarker specTwoCharMarker "•" := by
  decide

/-- C8 amended: for every input, the formatter replaces each bullet glyph
with the three-character marker of two spaces followed by an asterisk,
preserving surrounding text, and prefixes every line of the result — the
first and blank lines included — with the quoting marker. -/
theorem to_markdown_spec (t : String) : to_markdown t = formatSpecMarker bulletMarker t := by
  unfold to_markdown formatSpecMarker pyIndentAll
  rw [pyReplaceBullet_eq_bind]

/-- C9: the formatter is not idempotent — re-applying it to an already
formatted text prefixes every line a second time. -/
theorem to_markdown_not_idempotent :
    ∃ t : String, to_markdown (to_markdown t) ≠ to_markdown t :=
  ⟨"a", by decide⟩

/-- C2: per input line, the loop dispatches exactly one send carrying the
stripped text when the stripped text is non-empty and not an exit command
(whatever the send's outcome, and even when no scripted result is left),
and dispatches nothing — continuing exactly as if the line had not been
read — when the line strips to the empty string. -/
theorem loop_send_per_input (s : String) (rest : List ReadEvent) (sends : List SendResult) :
    (pyStrip s = "" → runLoop (ReadEvent.line s :: rest) sends = runLoop rest sends)
    ∧ (pyStrip s ≠ "" → isExitCmd (pyStrip s) = false →
        (sends = [] → (runLoop (ReadEvent.line s :: rest) sends).1 = [Action.send (pyStrip s)])
        ∧ ∀ r sends', sends = r :: sends' →
            sendTexts (runLoop (ReadEvent.line s :: rest) sends).1
              = pyStrip s :: afterSendTexts r rest sends') := by
  constructor
  · intro h
    simp [runLoop, h]
  · intro h1 h2
    constructor
    · rintro rfl
      simp [runLoop, h1, h2]
    · rintro r sends' rfl
      cases r <;>
        simp [runLoop, h1, h2, afterSendTexts, sendTexts, answerActions, sendErrAction]

/-- C2 witness: a whitespace-only line dispatches nothing, a stripped
question is sent exactly once. -/
theorem loop_send_per_input_witness :
    (runLoop (ReadEvent.line "   " :: [ReadEvent.eof]) [] = runLoop [ReadEvent.eof] [])
    ∧ sendTexts (runLoop (ReadEvent.line " hi " :: [ReadEvent.eof]) [SendResult.ok "y"]).1
        = "hi" :: afterSendTexts (SendResult.ok "y") [ReadEvent.eof] [] :=
  ⟨(loop_send_per_input "   " [ReadEvent.eof] []).1 (by decide),
   ((loop_send_per_input " hi " [ReadEvent.eof] [SendResult.ok "y"]).2
      (by decide) (by decide)).2 (SendResult.ok "y") [] rfl⟩

/-- C3: an input stripping to `exit`/`quit` case-insensitively — and likewise
end-of-input — ends the run with the farewell printed, no send issued for
that input, and exit code 0. -/
theorem exit_or_eof_graceful (s : String) (h : isExitCmd (pyStrip s) = true)
    (key : String) (hk : key ≠ "") (available : List String) (m : String)
    (hm : choose_model available defaultPreferred = Except.ok m) :
    pymain ⟨some key, Except.ok available, [ReadEvent.line s], []⟩
        = (Action.listModels :: (bannerActions ++ [Action.printOut "Goodbye! 👋"]),
           ProcResult.exit 0)
    ∧ sendTexts (pymain ⟨some key, Except.ok available, [ReadEvent.line s], []⟩).1 = []
    ∧ pymain ⟨some key, Except.ok available, [ReadEvent.eof], []⟩
        = (Action.listModels :: (bannerActions ++ [Action.printOut "\nGoodbye! 👋"]),
           ProcResult.exit 0) := by
  have hne : pyStrip s ≠ "" := by
    intro he
    rw [he] at h
    exact absurd h (by decide)
  refine ⟨?_, ?_, ?_⟩ <;>
    simp [pymain, configure_genai, hk, hm, runLoop, hne, h, bannerActions, sendTexts]

/-- C3 witness: the padded, capitalized `"  QUIT  "` terminates gracefully. -/
theorem exit_or_eof_graceful_witness :
    pymain ⟨some "k", Except.ok ["gemini-flash-latest"], [ReadEvent.line "  QUIT  "], []⟩
        = (Action.listModels :: (bannerActions ++ [Action.printOut "Goodbye! 👋"]),
           ProcResult.exit 0)
    ∧ sendTexts (pymain ⟨some "k", Except.ok ["gemini-flash-latest"],
        [ReadEvent.line "  QUIT  "], []⟩).1 = []
    ∧ pymain ⟨some "k", Except.ok ["gemini-flash-latest"], [ReadEvent.eof], []⟩
        = (Action.listModels :: (bannerActions ++ [Action.printOut "\nGoodbye! 👋"]),
           ProcResult.exit 0) :=
  exit_or_eof_graceful "  QUIT  " (by decide) "k" (by decide) ["gemini-flash-latest"]
    "gemini-flash-latest" rfl

/-- C4: a failed send reports the wrapped error on stderr and changes nothing
else — the run continues exactly as the same run without that turn, so the
loop keeps accepting input and later sends still go through. -/
theorem send_failure_recoverable (s e : String) (rest : List ReadEvent)
    (sends' : List SendResult) (h1 : pyStrip s ≠ "") (h2 : isExitCmd (pyStrip s) = false) :
    runLoop (ReadEvent.line s :: rest) (SendResult.exn e :: sends')
      = (Action.send (pyStrip s)
          :: Action.printErr ("An error occurred when sending the message: " ++ e)
          :: (runLoop rest sends').1,
         (runLoop rest sends').2) := by
  simp [runLoop, h1, h2, sendErrAction]

/-- C4 witness: after a failed first send, the second turn is sent and
answered as usual and the run still ends gracefully. -/
theorem send_failure_recoverable_witness :
    runLoop (ReadEvent.line "a" :: [ReadEvent.line "b", ReadEvent.eof])
        (SendResult.exn "boom" :: [SendResult.ok "fine"])
      = (Action.send "a"
          :: Action.printErr ("An error occurred when sending the message: " ++ "boom")
          :: (runLoop [ReadEvent.line "b", ReadEvent.eof] [SendResult.ok "fine"]).1,
         (runLoop [ReadEvent.line "b", ReadEvent.eof] [SendResult.ok "fine"]).2) :=
  send_failure_recoverable "a" "boom" [ReadEvent.line "b", ReadEvent.eof]
    [SendResult.ok "fine"] (by decide) (by decide)

/-- C6 counterexample: a `KeyboardInterrupt` arriving while the send is in
flight is caught by no handler of the program, so the run does not end with
exit code 0. -/
theorem interrupt_in_flight_not_graceful :
    (pymain ⟨some "k", Except.ok ["gemini-flash-latest"],
        [ReadEvent.line "q"], [SendResult.interrupt]⟩).2 = ProcResult.uncaughtInterrupt
    ∧ ProcResult.uncaughtInterrupt ≠ ProcResult.exit 0 := by
  exact ⟨by decide, by decide⟩

/-- C6 amended: an interrupt arriving while the loop awaits input terminates
it gracefully — farewell printed, exit code 0; an interrupt arriving while a
send is in flight escapes every handler and the process does not exit 0. -/
theorem interrupt_graceful_at_input_only (key : String) (hk : key ≠ "")
    (available : List String) (m : String)
    (hm : choose_model available defaultPreferred = Except.ok m)
    (s : String) (h1 : pyStrip s ≠ "") (h2 : isExitCmd (pyStrip s) = false) :
    pymain ⟨some key, Except.ok available, [ReadEvent.interrupt], []⟩
        = (Action.listModels :: (bannerActions ++ [Action.printOut "\nGoodbye! 👋"]),
           ProcResult.exit 0)
    ∧ (pymain ⟨some key, Except.ok available, [ReadEvent.line s], [SendResult.interrupt]⟩).2
        = ProcResult.uncaughtInterrupt := by
  constructor <;> simp [pymain, configure_genai, hk, hm, runLoop, h1, h2, bannerActions]

/-- C6 amended witness: both interrupt arrival points at concrete inputs. -/
theorem interrupt_graceful_at_input_only_witness :
    pymain ⟨some "k", Except.ok ["gemini-flash-latest"], [ReadEvent.interrupt], []⟩
        = (Action.listModels :: (bannerActions ++ [Action.printOut "\nGoodbye! 👋"]),
           ProcResult.exit 0)
    ∧ (pymain ⟨some "k", Except.ok ["gemini-flash-latest"],
        [ReadEvent.line "q"], [SendResult.interrupt]⟩).2 = ProcResult.uncaughtInterrupt :=
  interrupt_graceful_at_input_only "k" (by decide) ["gemini-flash-latest"]
    "gemini-flash-latest" rfl "q" (by decide) (by decide)

/-- C10: with the credential variable absent or empty, the run reports a
configuration error on stderr, exits with code 1, and issues no provider
call — neither the model listing nor any send. -/
theorem missing_credential_fatal (env : Env)
    (h : env.googleApiKey = none ∨ env.googleApiKey = some "") :
    pymain env
      = ([Action.printErr ("Configuration error: " ++ configMissingMsg)], ProcResult.exit 1)
    ∧ Action.listModels ∉ (pymain env).1
    ∧ sendTexts (pymain env).1 = [] := by
  have hmain : pymain env
      = ([Action.printErr ("Configuration error: " ++ configMissingMsg)], ProcResult.exit 1) := by
    rcases h with h | h <;> simp [pymain, configure_genai, h]
  refine ⟨hmain, ?_, ?_⟩ <;> simp [hmain, sendTexts]

/-- C10 witness: the unset-variable environment, with provider and input
scripts standing by unused. -/
theorem missing_credential_fatal_witness :
    pymain ⟨none, Except.ok ["gemini-flash-latest"], [ReadEvent.line "q"], [SendResult.ok "r"]⟩
      = ([Action.printErr ("Configuration error: " ++ configMissingMsg)], ProcResult.exit 1)
    ∧ Action.listModels ∉ (pymain ⟨none, Except.ok ["gemini-flash-latest"],
        [ReadEvent.line "q"], [SendResult.ok "r"]⟩).1
    ∧ sendTexts (pymain ⟨none, Except.ok ["gemini-flash-latest"],
        [ReadEvent.line "q"], [SendResult.ok "r"]⟩).1 = [] :=
  missing_credential_fatal
    ⟨none, Except.ok ["gemini-flash-latest"], [ReadEvent.line "q"], [SendResult.ok "r"]⟩
    (Or.inl rfl)

end LegalAssistant
